import Mathlib

/-!
Verification of the Hybrid Grounding Decision Engine of the `isrogeo`
repository (`src/multi-model-env-backend/src/services/grounding_service.py`,
with the sibling implementation in `src/backend/src/services/grounding_service.py`
where a claim cites it).

The Python code is shallowly embedded:

* Python floats are modelled as exact rationals (`ℚ`); every IEEE-754 double
  is a rational number, and the properties checked here (clamping, branch
  selection, counter updates, list lengths) do not depend on rounding.
* `np.cos`/`np.sin` are transcendental; `_convert_to_8point_obb` is therefore
  embedded with the already-computed cosine/sine of the rotation angle as
  explicit arguments `cosA sinA` (the float values the numpy calls return).
  An angle of `0.0` gives exactly `cosA = 1, sinA = 0`, since
  `np.cos(0.0) = 1.0` and `np.sin(0.0) = 0.0` exactly.
* The regex engine is an external collaborator: `re.findall` results are the
  parser model's inputs.  A tagged match (`<obb>[...]</obb>` / `<hbb>[...]</hbb>`)
  is the list of its comma-separated tokens, each token given as `Option ℚ`
  (`none` when Python's `float(...)` would raise `ValueError`).
* Model inference (`YOLO.predict`, LLaVA generation) is opaque: a `QueryEnv`
  records, for one query, what the external calls would return or raise.
-/

namespace IsroGeo

/-- Embeds `np.clip(x, 0.0, 1.0)`: clamp a coordinate to the unit interval. -/
def clip01 (x : ℚ) : ℚ := max 0 (min 1 x)

/-- Normalize a pixel coordinate by an image dimension and clamp, as done to
each of the 8 entries of `normalized` in `_convert_to_8point_obb`. -/
def normClip (v img : ℚ) : ℚ := clip01 (v / img)

/-- Embeds `GroundingService._convert_to_8point_obb`, unrolled.

The source builds `corners = [(-hw,-hh),(hw,-hh),(hw,hh),(-hw,hh)]`
(top-left, top-right, bottom-right, bottom-left), applies the rotation
matrix `R = [[cos,-sin],[sin,cos]]` as `corners @ R.T` — sending offset
`(dx,dy)` to `(cos*dx - sin*dy, sin*dx + cos*dy)` — translates by the
center `(cx, cy)`, divides x by `img_w` and y by `img_h`, and clips every
entry to `[0,1]`.  `cosA`/`sinA` are the values `np.cos(angle_rad)` and
`np.sin(angle_rad)` computed by the source. -/
def convert_to_8point_obb (cx cy w h cosA sinA imgW imgH : ℚ) : List ℚ :=
  [ normClip (cosA * (-(w / 2)) - sinA * (-(h / 2)) + cx) imgW,
    normClip (sinA * (-(w / 2)) + cosA * (-(h / 2)) + cy) imgH,
    normClip (cosA * (w / 2) - sinA * (-(h / 2)) + cx) imgW,
    normClip (sinA * (w / 2) + cosA * (-(h / 2)) + cy) imgH,
    normClip (cosA * (w / 2) - sinA * (h / 2) + cx) imgW,
    normClip (sinA * (w / 2) + cosA * (h / 2) + cy) imgH,
    normClip (cosA * (-(w / 2)) - sinA * (h / 2) + cx) imgW,
    normClip (sinA * (-(w / 2)) + cosA * (h / 2) + cy) imgH ]

theorem clip01_nonneg (x : ℚ) : 0 ≤ clip01 x := le_max_left 0 (min 1 x)

theorem clip01_le_one (x : ℚ) : clip01 x ≤ 1 :=
  max_le (by norm_num) (min_le_left 1 x)

theorem normClip_mem_unit (v img : ℚ) : 0 ≤ normClip v img ∧ normClip v img ≤ 1 :=
  ⟨clip01_nonneg _, clip01_le_one _⟩

/-- C5: for every input to the Geometry Transform (`_convert_to_8point_obb`) —
any center, width, height, rotation (given through its cosine and sine), and
positive image dimensions — each of the 8 output coordinates lies in `[0, 1]`;
the final `np.clip` bounds even corners that fall outside the image. -/
theorem convert_to_8point_obb_clamped
    (cx cy w h cosA sinA imgW imgH : ℚ)
    (hW : 0 < imgW) (hH : 0 < imgH) :
    ∀ v ∈ convert_to_8point_obb cx cy w h cosA sinA imgW imgH,
      0 ≤ v ∧ v ≤ 1 := by
  intro v hv
  simp only [convert_to_8point_obb, List.mem_cons, List.not_mem_nil, or_false] at hv
  rcases hv with h | h | h | h | h | h | h | h <;>
    (subst h; exact normClip_mem_unit _ _)

/-- C5 witness: concrete evaluation at center (500,500), size 100×100,
angle 0, image 1000×1000 — the first output coordinate is 0.45 ∈ [0,1]. -/
theorem convert_to_8point_obb_clamped_witness :
    0 ≤ normClip ((1 : ℚ) * (-(100 / 2)) - 0 * (-(100 / 2)) + 500) 1000 ∧
      normClip ((1 : ℚ) * (-(100 / 2)) - 0 * (-(100 / 2)) + 500) 1000 ≤ 1 :=
  convert_to_8point_obb_clamped 500 500 100 100 1 0 1000 1000
    (by norm_num) (by norm_num) _ (by simp [convert_to_8point_obb])

/-- C7: with rotation angle 0 (cosine 1, sine 0), the Geometry Transform's
four corners are exactly the axis-aligned rectangle
`((cx∓w/2)/img_w, (cy∓h/2)/img_h)` in the order top-left, top-right,
bottom-right, bottom-left, up to the final clamping to `[0,1]`. -/
theorem convert_to_8point_obb_angle_zero
    (cx cy w h imgW imgH : ℚ) :
    convert_to_8point_obb cx cy w h 1 0 imgW imgH =
      [ clip01 ((cx - w / 2) / imgW), clip01 ((cy - h / 2) / imgH),
        clip01 ((cx + w / 2) / imgW), clip01 ((cy - h / 2) / imgH),
        clip01 ((cx + w / 2) / imgW), clip01 ((cy + h / 2) / imgH),
        clip01 ((cx - w / 2) / imgW), clip01 ((cy + h / 2) / imgH) ] := by
  simp only [convert_to_8point_obb, normClip, List.cons.injEq, and_true]
  refine ⟨?_, ?_, ?_, ?_, ?_, ?_, ?_, ?_⟩ <;> (congr 1; ring)

/-! ## Response Parser

Both implementations of `_parse_geoground_response` run `re.findall` for the
tagged patterns, slice the match list to `max_boxes`, and process each match
inside a `try`/`except` that silently skips matches whose tokens fail
`float(...)`.  A raw match is the token list of its comma-separated content;
each token is `some q` (the parsed float) or `none` (`float` raises). -/

/-- A tagged regex match, as the list of float-parse results of the
comma-separated tokens of its bracketed content. -/
abbrev RawMatch := List (Option ℚ)

/-- One grounding detection: `str(idx)` label (kept as the index itself) and
the coordinate list. -/
abbrev Detection := Nat × List ℚ

/-- Embeds `[float(x.strip()) for x in match.split(',')]` inside `try`: the whole
comprehension fails (the match is skipped) as soon as any token fails. -/
def parseFloats : RawMatch → Option (List ℚ)
  | [] => some []
  | none :: _ => none
  | some q :: rest =>
    match parseFloats rest with
    | none => none
    | some qs => some (q :: qs)

/-- One `<obb>` match of the hybrid parser: needs ≥ 5 coords
`cx, cy, w, h, angle_deg`, rescales from the 0–1000 scale to pixels, and
applies the Geometry Transform.  `trig d` is the pair
`(np.cos(np.radians(d)), np.sin(np.radians(d)))` the source computes. -/
def obbMatchDetection (trig : ℚ → ℚ × ℚ) (imgW imgH : ℚ) (m : RawMatch) :
    Option (List ℚ) :=
  match parseFloats m with
  | some (cx :: cy :: w :: h :: angleDeg :: _) =>
    some (convert_to_8point_obb (cx / 1000 * imgW) (cy / 1000 * imgH)
      (w / 1000 * imgW) (h / 1000 * imgH)
      (trig angleDeg).1 (trig angleDeg).2 imgW imgH)
  | _ => none

/-- One `<hbb>` match of the hybrid parser: needs ≥ 4 coords `x1,y1,x2,y2`,
rescales to pixels, derives center/size, and applies the Geometry Transform
with angle `0.0` (whose cosine and sine are exactly 1 and 0). -/
def hbbMatchDetection (imgW imgH : ℚ) (m : RawMatch) : Option (List ℚ) :=
  match parseFloats m with
  | some (x1 :: y1 :: x2 :: y2 :: _) =>
    some (convert_to_8point_obb
      ((x1 / 1000 * imgW + x2 / 1000 * imgW) / 2)
      ((y1 / 1000 * imgH + y2 / 1000 * imgH) / 2)
      (abs (x2 / 1000 * imgW - x1 / 1000 * imgW))
      (abs (y2 / 1000 * imgH - y1 / 1000 * imgH))
      1 0 imgW imgH)
  | _ => none

/-- The `for idx, match in enumerate(matches[:max_boxes], 1)` loop body for a
per-match detection function: 1-based indices advance on every match,
including skipped ones. -/
def matchLoop (det : RawMatch → Option (List ℚ)) :
    Nat → List RawMatch → List Detection
  | _, [] => []
  | idx, m :: rest =>
    match det m with
    | some poly => (idx, poly) :: matchLoop det (idx + 1) rest
    | none => matchLoop det (idx + 1) rest

/-- Embeds `GroundingService._parse_geoground_response` of
`multi-model-env-backend`: try the `<obb>` matches (sliced to `max_boxes`);
only if none produced a detection, try the `<hbb>` matches.  This
implementation has no further fallback: text whose boxes carry no tag parses
to the empty list. -/
def parse_geoground_response (trig : ℚ → ℚ × ℚ)
    (obbMatches hbbMatches : List RawMatch) (maxBoxes : Nat)
    (imgW imgH : ℚ) : List Detection :=
  let dets := matchLoop (obbMatchDetection trig imgW imgH) 1 (obbMatches.take maxBoxes)
  if dets.isEmpty then
    matchLoop (hbbMatchDetection imgW imgH) 1 (hbbMatches.take maxBoxes)
  else dets

/-! ### The backend variant (`src/backend/.../grounding_service.py`)

It emits `[cx_norm, cy_norm, w_norm, h_norm, angle]` 5-value boxes (each of
the first four clamped to `[0,1]` after division by 1000) and has a third,
bare-numeric strategy: a regex for a comma-separated run of 4 numbers with an
optional bracket and an optional 5th number.  Its captured groups always
parse as floats, so such a match is `(n1, n2, n3, n4, optional n5)`. -/

/-- A match of the backend's bare-number regex: four numbers plus the
optional fifth capture group (empty ↦ `none`). -/
abbrev NumMatch := ℚ × ℚ × ℚ × ℚ × Option ℚ

/-- One backend `<obb>` match: `[cx/1000, cy/1000, w/1000, h/1000]` clamped,
angle kept in degrees. -/
def backendObbDetection (m : RawMatch) : Option (List ℚ) :=
  match parseFloats m with
  | some (cx :: cy :: w :: h :: angle :: _) =>
    some [clip01 (cx / 1000), clip01 (cy / 1000),
          clip01 (w / 1000), clip01 (h / 1000), angle]
  | _ => none

/-- One backend `<hbb>` match: center/size derived from corners, angle 0. -/
def backendHbbDetection (m : RawMatch) : Option (List ℚ) :=
  match parseFloats m with
  | some (x1 :: y1 :: x2 :: y2 :: _) =>
    some [clip01 ((x1 + x2) / 2 / 1000), clip01 ((y1 + y2) / 2 / 1000),
          clip01 (abs (x2 - x1) / 1000), clip01 (abs (y2 - y1) / 1000), 0]
  | _ => none

/-- One backend bare-number match: `if match[4]:` — a present 5th group means
the run is `cx,cy,w,h,angle`; otherwise it is corner format `x1,y1,x2,y2`. -/
def backendNumDetection : NumMatch → List ℚ
  | (cx, cy, w, h, some angle) =>
    [clip01 (cx / 1000), clip01 (cy / 1000),
     clip01 (w / 1000), clip01 (h / 1000), angle]
  | (x1, y1, x2, y2, none) =>
    [clip01 ((x1 + x2) / 2 / 1000), clip01 ((y1 + y2) / 2 / 1000),
     clip01 (abs (x2 - x1) / 1000), clip01 (abs (y2 - y1) / 1000), 0]

/-- The backend's bare-number loop (`enumerate(number_matches[:max_boxes], 1)`);
every match yields a detection, so no skipping occurs. -/
def numLoop : Nat → List NumMatch → List Detection
  | _, [] => []
  | idx, m :: rest => (idx, backendNumDetection m) :: numLoop (idx + 1) rest

/-- The backend `GroundingService._parse_geoground_response`: `<obb>` matches
first, then (only if no detection yet) `<hbb>` matches, then (only if still
no detection) the bare-number matches, each list sliced to `max_boxes`. -/
def backend_parse_geoground_response (obbMatches hbbMatches : List RawMatch)
    (numMatches : List NumMatch) (maxBoxes : Nat) : List Detection :=
  let d1 := matchLoop backendObbDetection 1 (obbMatches.take maxBoxes)
  if d1.isEmpty then
    let d2 := matchLoop backendHbbDetection 1 (hbbMatches.take maxBoxes)
    if d2.isEmpty then numLoop 1 (numMatches.take maxBoxes)
    else d2
  else d1

theorem numLoop_length (idx : Nat) (l : List NumMatch) :
    (numLoop idx l).length = l.length := by
  induction l generalizing idx with
  | nil => rfl
  | cons m rest ih => simp [numLoop, ih]

theorem matchLoop_length_of_valid (det : RawMatch → Option (List ℚ))
    (idx : Nat) (l : List RawMatch)
    (h : ∀ m ∈ l, (det m).isSome) :
    (matchLoop det idx l).length = l.length := by
  induction l generalizing idx with
  | nil => rfl
  | cons m rest ih =>
    have hm : (det m).isSome := h m (List.mem_cons_self m rest)
    rcases Option.isSome_iff_exists.mp hm with ⟨poly, hp⟩
    have hrest : ∀ x ∈ rest, (det x).isSome := fun x hx =>
      h x (List.mem_cons_of_mem m hx)
    simp [matchLoop, hp, ih _ hrest]

/-- C4 counterexample: the hybrid engine's parser
(`multi-model-env-backend`) has no bare-numeric strategy.  On the response
text `"[100, 200, 300, 400]"` — no tagged match, but a bracketed run of 4
numbers — both tagged regexes find nothing (both match lists are empty), and
the parser returns the empty sequence, not a detection, for any trig values,
with image 1000×1000 and the default cap 10.  The claim says at least one
detection is returned via a bare-numeric fallback. -/
theorem hybrid_parse_no_bare_numeric_fallback_cex :
    parse_geoground_response (fun _ => (1, 0)) [] [] 10 1000 1000 = [] := rfl

/-- C4 amended: in the backend parser the fixed strategy order holds and the
bare-numeric fallback fires: with no tagged `<obb>`/`<hbb>` match, at least
one bare-number match, and a positive cap, the result is exactly the
bare-number strategy's output and is non-empty. -/
theorem backend_parse_bare_numeric_fallback
    (numMatches : List NumMatch) (maxBoxes : Nat)
    (hnum : numMatches ≠ []) (hcap : 0 < maxBoxes) :
    backend_parse_geoground_response [] [] numMatches maxBoxes =
        numLoop 1 (numMatches.take maxBoxes) ∧
      backend_parse_geoground_response [] [] numMatches maxBoxes ≠ [] := by
  have heq : backend_parse_geoground_response [] [] numMatches maxBoxes =
      numLoop 1 (numMatches.take maxBoxes) := by
    simp [backend_parse_geoground_response, matchLoop]
  refine ⟨heq, ?_⟩
  rw [heq]
  intro hnil
  have hlen := congrArg List.length hnil
  rw [numLoop_length] at hlen
  rcases numMatches with _ | ⟨m, rest⟩
  · exact hnum rfl
  · rw [List.length_take] at hlen
    simp at hlen
    omega

/-- C4 witness: text with no tagged match and the single bracketed run
`[100, 200, 300, 400]`, cap 10 — the backend parser returns the bare-number
strategy's one detection. -/
theorem backend_parse_bare_numeric_fallback_witness :
    backend_parse_geoground_response [] [] [(100, 200, 300, 400, none)] 10 =
        numLoop 1 ([((100 : ℚ), (200 : ℚ), (300 : ℚ), (400 : ℚ),
          (none : Option ℚ))].take 10) ∧
      backend_parse_geoground_response [] [] [(100, 200, 300, 400, none)] 10 ≠ [] :=
  backend_parse_bare_numeric_fallback [(100, 200, 300, 400, none)] 10
    (by simp) (by norm_num)

/-- Trig oracle for an angle token of `0`: `np.cos(np.radians(0)) = 1` and
`np.sin(np.radians(0)) = 0` exactly. -/
def trigZero : ℚ → ℚ × ℚ := fun _ => (1, 0)

/-- An unparseable `<obb>` match, e.g. from the text `"<obb>[a]</obb>"`:
`float("a")` raises, so its single token is `none`. -/
def badMatch : RawMatch := [none]

/-- A valid `<obb>` match from the text `"<obb>[500,500,100,100,0]</obb>"`. -/
def goodMatch : RawMatch := [some 500, some 500, some 100, some 100, some 0]

/-- C8 counterexample: the hybrid parser slices the match list to
`max_boxes` BEFORE validating, so invalid matches inside the first
`max_boxes` positions reduce the returned count.  Response text with 8
`<obb>` matches — two malformed ones first, then six valid ones (6 valid
matches > cap 5) — parsed with `max_detections = 5` yields 3 detections,
not the 5 the claim requires. -/
theorem hybrid_parse_cap_cex :
    (parse_geoground_response trigZero
        [badMatch, badMatch, goodMatch, goodMatch, goodMatch, goodMatch,
         goodMatch, goodMatch] [] 5 1000 1000).length = 3 ∧
      (parse_geoground_response trigZero
        [badMatch, badMatch, goodMatch, goodMatch, goodMatch, goodMatch,
         goodMatch, goodMatch] [] 5 1000 1000).length ≠ 5 := by
  refine ⟨rfl, ?_⟩
  intro h
  have h3 : (3 : Nat) = 5 := Eq.trans rfl h
  omega

/-- C8 amended: when the parser input has at least `max_boxes`
tagged-oriented matches and the EARLIEST `max_boxes` of them are all valid,
exactly `max_boxes` detections are returned — the earliest matches — and the
excess matches are silently ignored.  (The source truncates the match list
to the cap before validating each match, so a malformed match within the
first `max_boxes` positions lowers the returned count below the cap even
when enough valid matches exist later.) -/
theorem hybrid_parse_cap_enforced (trig : ℚ → ℚ × ℚ) (imgW imgH : ℚ)
    (obbMatches hbbMatches : List RawMatch) (maxBoxes : Nat)
    (hlen : maxBoxes ≤ obbMatches.length) (hcap : 0 < maxBoxes)
    (hvalid : ∀ m ∈ obbMatches.take maxBoxes,
      (obbMatchDetection trig imgW imgH m).isSome) :
    parse_geoground_response trig obbMatches hbbMatches maxBoxes imgW imgH =
        matchLoop (obbMatchDetection trig imgW imgH) 1
          (obbMatches.take maxBoxes) ∧
      (parse_geoground_response trig obbMatches hbbMatches maxBoxes
        imgW imgH).length = maxBoxes := by
  have hl : (matchLoop (obbMatchDetection trig imgW imgH) 1
      (obbMatches.take maxBoxes)).length = maxBoxes := by
    rw [matchLoop_length_of_valid _ _ _ hvalid, List.length_take]
    omega
  have hne : matchLoop (obbMatchDetection trig imgW imgH) 1
      (obbMatches.take maxBoxes) ≠ [] := by
    intro h0
    rw [h0] at hl
    simp at hl
    omega
  have heq : parse_geoground_response trig obbMatches hbbMatches maxBoxes
      imgW imgH =
      matchLoop (obbMatchDetection trig imgW imgH) 1
        (obbMatches.take maxBoxes) := by
    simp only [parse_geoground_response]
    rw [if_neg]
    simp [List.isEmpty_iff, hne]
  exact ⟨heq, heq ▸ hl⟩

/-- C8 witness: six valid `<obb>` matches with cap 5 — exactly 5 detections,
the earliest five. -/
theorem hybrid_parse_cap_enforced_witness :
    parse_geoground_response trigZero
        [goodMatch, goodMatch, goodMatch, goodMatch, goodMatch, goodMatch]
        [] 5 1000 1000 =
      matchLoop (obbMatchDetection trigZero 1000 1000) 1
        ([goodMatch, goodMatch, goodMatch, goodMatch, goodMatch,
          goodMatch].take 5) ∧
      (parse_geoground_response trigZero
        [goodMatch, goodMatch, goodMatch, goodMatch, goodMatch, goodMatch]
        [] 5 1000 1000).length = 5 :=
  hybrid_parse_cap_enforced trigZero 1000 1000
    [goodMatch, goodMatch, goodMatch, goodMatch, goodMatch, goodMatch]
    [] 5 (by simp) (by norm_num) (by decide)

/-! ## Grounding Decision Engine (`GroundingService.detect_objects`)

The per-service counters are Python ints (ℤ here).  `detect_objects` wraps
its whole body in `try`/`except Exception`: the handler increments
`failed_queries` and returns `[]`, so the function always returns normally.
`detectObjectsTry` is the body up to that handler: its `outcome` is the
value the `try` block would return or the exception it would raise; counter
mutations made before an exception persist, so the partial statistics are
returned alongside.  `yoloCalls`/`geoCalls` count how often each adapter's
inference routine is entered during the query. -/

/-- Statistics counters of `GroundingService` (Python ints). -/
structure Stats where
  totalQueries : ℤ
  yoloSelections : ℤ
  geogroundSelections : ℤ
  failedQueries : ℤ
  totalDetections : ℤ
deriving DecidableEq

/-- The per-instance configuration `detect_objects` consults: whether each
model loaded (`self.yolo_model is not None` / `self.geoground_model is not
None`) and the selection threshold. -/
structure Service where
  stats : Stats
  yoloLoaded : Bool
  geogroundLoaded : Bool
  selectionThreshold : ℚ
deriving DecidableEq

/-- External behaviour for one query: whether the image loads
(`os.path.exists` + `Image.open`), and what each adapter's underlying
inference would produce — `.error` when the model call raises. -/
structure QueryEnv where
  imageOk : Bool
  yoloRaw : Except Unit (List Detection × ℚ)
  geoRaw : Except Unit (List Detection)

/-- The model-name strings `'yolo'` / `'geoground'` the engine compares;
`other` stands for any other (lower-cased) forced string. -/
inductive SelModel
  | yolo
  | geoground
  | other
deriving DecidableEq

/-- Python exceptions distinguished by the embedding: `FileNotFoundError`
from the image-loading step, `AttributeError` from
`selected_model.upper()` when `selected_model` is still `None`. -/
inductive PyError
  | fileNotFound
  | attributeError
deriving DecidableEq

/-- Result of the `try` block: the normal value or the escaping exception,
plus the counter state and adapter-invocation counts at that point. -/
structure TryOutcome where
  outcome : Except PyError (List Detection)
  stats : Stats
  selectedModel : Option SelModel
  yoloCalls : Nat
  geoCalls : Nat

/-- What the caller of `detect_objects` observes (the `return_metadata=False`
shape, with the counter state and adapter-invocation counts exposed for the
statements below). -/
structure DetectResult where
  detections : List Detection
  stats : Stats
  selectedModel : Option SelModel
  yoloCalls : Nat
  geoCalls : Nat
deriving DecidableEq

/-- Embeds `GroundingService._run_yolo_inference`: its own `try`/`except` returns
`([], 0.0)` when the underlying predict call raises. -/
def runYoloInference (env : QueryEnv) : List Detection × ℚ :=
  match env.yoloRaw with
  | .ok r => r
  | .error _ => ([], 0)

/-- Embeds `GroundingService._run_geoground_inference`: its own `try`/`except`
returns `[]` when generation or preprocessing raises, so no exception from
the open-vocabulary adapter ever reaches `detect_objects`. -/
def runGeogroundInference (env : QueryEnv) : List Detection :=
  match env.geoRaw with
  | .ok r => r
  | .error _ => []

/-- Tail of the `try` block after the detections are final:
`self.total_detections += len(detections)` and then the summary print —
which evaluates `selected_model.upper()` and raises `AttributeError` when
`selected_model` is still `None` (both models unavailable). -/
def finishQuery (st : Stats) (selected : Option SelModel)
    (dets : List Detection) (y g : Nat) : TryOutcome :=
  let st2 := { st with totalDetections := st.totalDetections + dets.length }
  match selected with
  | none =>
    { outcome := .error .attributeError, stats := st2,
      selectedModel := none, yoloCalls := y, geoCalls := g }
  | some m =>
    { outcome := .ok dets, stats := st2,
      selectedModel := some m, yoloCalls := y, geoCalls := g }

/-- The "Run appropriate model" section of `detect_objects`:

```
if selected_model == 'yolo' and not detections:
    if self.yolo_model is not None:
        detections, yolo_confidence = self._run_yolo_inference(image, query)
        self.yolo_selections += 1
    else:
        detections = []
elif selected_model == 'geoground':
    if self.geoground_model is not None:
        detections = self._run_geoground_inference(image, query)
        self.geoground_selections += 1
    else:
        detections = []
```

Note the guard `and not detections`: when the fast pass was accepted with a
non-empty detection list, NEITHER branch runs, so `yolo_selections` is not
incremented. -/
def runSelected (s : Service) (env : QueryEnv) (st : Stats)
    (selected : Option SelModel) (detections : List Detection)
    (y : Nat) : TryOutcome :=
  if selected = some .yolo ∧ detections = [] then
    if s.yoloLoaded then
      finishQuery { st with yoloSelections := st.yoloSelections + 1 }
        selected (runYoloInference env).1 (y + 1) 0
    else finishQuery st selected [] y 0
  else if selected = some .geoground then
    if s.geogroundLoaded then
      finishQuery { st with geogroundSelections := st.geogroundSelections + 1 }
        selected (runGeogroundInference env) y 1
    else finishQuery st selected [] y 0
  else finishQuery st selected detections y 0

/-- The non-forced model-selection section of `detect_objects`: a YOLO fast
pass when YOLO is loaded, acceptance when `yolo_confidence >=
self.selection_threshold`, otherwise fall back to GeoGround if loaded, else
re-use the low-confidence fast pass, else no model at all. -/
def nonForcedSelection (s : Service) (env : QueryEnv) (st : Stats) :
    TryOutcome :=
  if s.yoloLoaded then
    let r := runYoloInference env
    if s.selectionThreshold ≤ r.2 then
      runSelected s env st (some .yolo) r.1 1
    else if s.geogroundLoaded then
      runSelected s env st (some .geoground) [] 1
    else
      runSelected s env st (some .yolo) r.1 1
  else
    if s.geogroundLoaded then runSelected s env st (some .geoground) [] 0
    else runSelected s env st none [] 0

/-- The `try` block of `detect_objects`: increment `total_queries`, load the
image (raising `FileNotFoundError` when it cannot be loaded — before any
adapter is touched), then select and run a model.  A forced model skips the
fast pass and the confidence check entirely. -/
def detectObjectsTry (s : Service) (env : QueryEnv)
    (forceModel : Option SelModel) : TryOutcome :=
  let st := { s.stats with totalQueries := s.stats.totalQueries + 1 }
  if env.imageOk then
    match forceModel with
    | some m => runSelected s env st (some m) [] 0
    | none => nonForcedSelection s env st
  else
    { outcome := .error .fileNotFound, stats := st,
      selectedModel := none, yoloCalls := 0, geoCalls := 0 }

/-- Embeds `GroundingService.detect_objects`: the outer `except Exception` handler
turns any exception from the body into `failed_queries += 1` and an empty
detection list, so the caller always gets a normal return. -/
def detectObjects (s : Service) (env : QueryEnv)
    (forceModel : Option SelModel) : DetectResult :=
  match (detectObjectsTry s env forceModel).outcome with
  | .ok ds =>
    { detections := ds,
      stats := (detectObjectsTry s env forceModel).stats,
      selectedModel := (detectObjectsTry s env forceModel).selectedModel,
      yoloCalls := (detectObjectsTry s env forceModel).yoloCalls,
      geoCalls := (detectObjectsTry s env forceModel).geoCalls }
  | .error _ =>
    { detections := [],
      stats :=
        { (detectObjectsTry s env forceModel).stats with
          failedQueries :=
            (detectObjectsTry s env forceModel).stats.failedQueries + 1 },
      selectedModel := (detectObjectsTry s env forceModel).selectedModel,
      yoloCalls := (detectObjectsTry s env forceModel).yoloCalls,
      geoCalls := (detectObjectsTry s env forceModel).geoCalls }

/-! ### Concrete query configurations used by the closed statements -/

/-- A freshly initialized hybrid service: zeroed counters, both models
loaded, default `selection_threshold = 0.6`. -/
def sHybrid : Service :=
  { stats := ⟨0, 0, 0, 0, 0⟩, yoloLoaded := true, geogroundLoaded := true,
    selectionThreshold := 3 / 5 }

/-- A sample detection as produced by the adapters. -/
def detEx : Detection := (1, [0, 0, 0, 0, 0, 0, 0, 0])

/-- Query whose fast pass returns one detection at confidence `0.8`. -/
def envFastPass : QueryEnv :=
  { imageOk := true, yoloRaw := .ok ([detEx], 4 / 5), geoRaw := .ok [] }

/-- Query whose image path does not exist (`Image.open` never reached,
`FileNotFoundError` raised). -/
def envNoImage : QueryEnv :=
  { imageOk := false, yoloRaw := .ok ([], 0), geoRaw := .ok [] }

/-- Query whose fast pass finds nothing (confidence `0.0`) and whose
open-vocabulary generation raises. -/
def envGeoRaises : QueryEnv :=
  { imageOk := true, yoloRaw := .ok ([], 0), geoRaw := .error () }

/-- C1 theorem (evaluating the code at the failing input): a non-forced
query on a fresh hybrid service whose fast pass yields one detection at
confidence `0.8 ≥ threshold 0.6`.  The total-query counter increments to 1
and the open-vocabulary adapter is never invoked, but — because the
`yolo_selections += 1` statement sits inside the
`if selected_model == 'yolo' and not detections:` re-inference branch, which
a successful fast pass skips — NEITHER per-model selection counter
increments, contradicting the claimed invariant. -/
theorem fastpass_skips_yolo_selection_counter :
    (detectObjects sHybrid envFastPass none).stats.totalQueries = 1 ∧
      (detectObjects sHybrid envFastPass none).stats.yoloSelections = 0 ∧
      (detectObjects sHybrid envFastPass none).stats.geogroundSelections = 0 ∧
      (detectObjects sHybrid envFastPass none).geoCalls = 0 ∧
      (detectObjects sHybrid envFastPass none).detections = [detEx] := by
  have hle : ((3 : ℚ) / 5) ≤ 4 / 5 := by norm_num
  simp [detectObjects, detectObjectsTry, nonForcedSelection, runSelected,
    runYoloInference, finishQuery, sHybrid, envFastPass, detEx, hle]

/-- C2 counterexample: on a missing image file, `detect_objects` does NOT
propagate the `FileNotFoundError`: the body's single outer
`except Exception` catches it, increments `failed_queries`, and returns a
normal empty list.  (The `try`-level outcome confirms the error arises
before either adapter is invoked: zero adapter calls.) -/
theorem image_error_swallowed_cex :
    (detectObjectsTry sHybrid envNoImage none).outcome =
        .error .fileNotFound ∧
      (detectObjects sHybrid envNoImage none).detections = [] ∧
      (detectObjects sHybrid envNoImage none).stats.failedQueries = 1 ∧
      (detectObjects sHybrid envNoImage none).yoloCalls = 0 ∧
      (detectObjects sHybrid envNoImage none).geoCalls = 0 := by
  simp [detectObjects, detectObjectsTry, sHybrid, envNoImage]

/-- C2 amended: when the image cannot be loaded, the error is raised inside
the `try` block before any adapter is invoked, but the outer handler
converts it into a failed query: the caller receives an empty detection
list (no exception), `failed_queries` increments, and neither adapter runs. -/
theorem image_error_failed_query (s : Service) (env : QueryEnv)
    (force : Option SelModel) (himg : env.imageOk = false) :
    (detectObjectsTry s env force).outcome = .error .fileNotFound ∧
      (detectObjects s env force).detections = [] ∧
      (detectObjects s env force).stats.failedQueries =
        s.stats.failedQueries + 1 ∧
      (detectObjects s env force).stats.totalQueries =
        s.stats.totalQueries + 1 ∧
      (detectObjects s env force).yoloCalls = 0 ∧
      (detectObjects s env force).geoCalls = 0 := by
  have ht : detectObjectsTry s env force =
      { outcome := .error .fileNotFound,
        stats := { s.stats with totalQueries := s.stats.totalQueries + 1 },
        selectedModel := none, yoloCalls := 0, geoCalls := 0 } := by
    simp [detectObjectsTry, himg]
  simp [detectObjects, ht]

/-- C2 witness: concrete missing-image query on the fresh hybrid service. -/
theorem image_error_failed_query_witness :
    (detectObjectsTry sHybrid envNoImage none).outcome =
        .error .fileNotFound ∧
      (detectObjects sHybrid envNoImage none).detections = [] ∧
      (detectObjects sHybrid envNoImage none).stats.failedQueries =
        sHybrid.stats.failedQueries + 1 ∧
      (detectObjects sHybrid envNoImage none).stats.totalQueries =
        sHybrid.stats.totalQueries + 1 ∧
      (detectObjects sHybrid envNoImage none).yoloCalls = 0 ∧
      (detectObjects sHybrid envNoImage none).geoCalls = 0 :=
  image_error_failed_query sHybrid envNoImage none rfl

/-- C3 counterexample: fallback query (fast-pass confidence `0.0 < 0.6`)
whose open-vocabulary generation raises.  `detect_objects` does return `[]`,
but `failed_queries` stays 0 — the exception is caught inside
`_run_geoground_inference`, which returns `[]`, so the engine's failure
accounting never sees it; the query is even counted as a GeoGround
selection.  The claim's "failure counter increments by exactly 1" is false. -/
theorem geo_raise_no_failure_count_cex :
    (detectObjects sHybrid envGeoRaises none).detections = [] ∧
      (detectObjects sHybrid envGeoRaises none).stats.failedQueries = 0 ∧
      (detectObjects sHybrid envGeoRaises none).stats.geogroundSelections = 1 ∧
      (detectObjects sHybrid envGeoRaises none).geoCalls = 1 := by
  have hnle : ¬ ((3 : ℚ) / 5 ≤ 0) := by norm_num
  simp [detectObjects, detectObjectsTry, nonForcedSelection, runSelected,
    runYoloInference, runGeogroundInference, finishQuery, sHybrid,
    envGeoRaises, hnle]

/-- C3 amended: if the open-vocabulary adapter raises during the fallback
inference, `detect_objects` returns an empty list instead of propagating the
exception — but the failed-query counter is unchanged: the exception is
swallowed inside `_run_geoground_inference` (which returns `[]`), and the
query increments `geoground_selections` and `total_queries` like any
successful fallback. -/
theorem geo_raise_degrades_without_failure (s : Service) (env : QueryEnv)
    (ds : List Detection) (c : ℚ)
    (hyl : s.yoloLoaded = true) (hgl : s.geogroundLoaded = true)
    (himg : env.imageOk = true) (hyr : env.yoloRaw = .ok (ds, c))
    (hc : c < s.selectionThreshold) (hgr : env.geoRaw = .error ()) :
    (detectObjects s env none).detections = [] ∧
      (detectObjects s env none).stats.failedQueries =
        s.stats.failedQueries ∧
      (detectObjects s env none).stats.geogroundSelections =
        s.stats.geogroundSelections + 1 ∧
      (detectObjects s env none).stats.totalQueries =
        s.stats.totalQueries + 1 ∧
      (detectObjects s env none).geoCalls = 1 := by
  have hnle : ¬ (s.selectionThreshold ≤ c) := not_le.mpr hc
  have ht : detectObjectsTry s env none =
      { outcome := .ok [],
        stats :=
          { s.stats with
            totalQueries := s.stats.totalQueries + 1,
            geogroundSelections := s.stats.geogroundSelections + 1 },
        selectedModel := some .geoground, yoloCalls := 1, geoCalls := 1 } := by
    simp [detectObjectsTry, nonForcedSelection, runSelected,
      runYoloInference, runGeogroundInference, finishQuery, himg, hyl, hgl,
      hyr, hgr, hnle]
  simp [detectObjects, ht]

/-- C3 witness: the concrete fallback-raises query on the fresh hybrid
service. -/
theorem geo_raise_degrades_without_failure_witness :
    (detectObjects sHybrid envGeoRaises none).detections = [] ∧
      (detectObjects sHybrid envGeoRaises none).stats.failedQueries =
        sHybrid.stats.failedQueries ∧
      (detectObjects sHybrid envGeoRaises none).stats.geogroundSelections =
        sHybrid.stats.geogroundSelections + 1 ∧
      (detectObjects sHybrid envGeoRaises none).stats.totalQueries =
        sHybrid.stats.totalQueries + 1 ∧
      (detectObjects sHybrid envGeoRaises none).geoCalls = 1 :=
  geo_raise_degrades_without_failure sHybrid envGeoRaises [] 0 rfl rfl rfl
    rfl (by norm_num [sHybrid]) rfl

/-- C6: in a non-forced query whose fast-pass maximum confidence equals the
selection threshold exactly, the engine selects the closed-vocabulary
result (the acceptance comparison `yolo_confidence >=
self.selection_threshold` is non-strict): the returned detections are the
fast pass's, the model recorded is YOLO, and the open-vocabulary adapter is
never invoked. -/
theorem tie_at_threshold_selects_yolo (s : Service) (env : QueryEnv)
    (ds : List Detection)
    (hyl : s.yoloLoaded = true) (himg : env.imageOk = true)
    (hyr : env.yoloRaw = .ok (ds, s.selectionThreshold)) :
    (detectObjects s env none).detections = ds ∧
      (detectObjects s env none).selectedModel = some .yolo ∧
      (detectObjects s env none).geoCalls = 0 := by
  have hle : s.selectionThreshold ≤ s.selectionThreshold := le_refl _
  by_cases hds : ds = []
  · subst hds
    have ht : detectObjectsTry s env none =
        { outcome := .ok [],
          stats :=
            { s.stats with
              totalQueries := s.stats.totalQueries + 1,
              yoloSelections := s.stats.yoloSelections + 1 },
          selectedModel := some .yolo, yoloCalls := 2, geoCalls := 0 } := by
      simp [detectObjectsTry, nonForcedSelection, runSelected,
        runYoloInference, finishQuery, himg, hyl, hyr, hle]
    simp [detectObjects, ht]
  · have ht : detectObjectsTry s env none =
        { outcome := .ok ds,
          stats :=
            { s.stats with
              totalQueries := s.stats.totalQueries + 1,
              totalDetections := s.stats.totalDetections + ds.length },
          selectedModel := some .yolo, yoloCalls := 1, geoCalls := 0 } := by
      simp [detectObjectsTry, nonForcedSelection, runSelected,
        runYoloInference, finishQuery, himg, hyl, hyr, hle, hds]
    simp [detectObjects, ht]

/-- C6 witness: fast pass at confidence exactly `0.6 = threshold` with one
detection — the engine returns it, records YOLO, and never calls the
open-vocabulary adapter. -/
theorem tie_at_threshold_selects_yolo_witness :
    (detectObjects sHybrid
        { imageOk := true, yoloRaw := .ok ([detEx], 3 / 5), geoRaw := .ok [] }
        none).detections = [detEx] ∧
      (detectObjects sHybrid
        { imageOk := true, yoloRaw := .ok ([detEx], 3 / 5), geoRaw := .ok [] }
        none).selectedModel = some .yolo ∧
      (detectObjects sHybrid
        { imageOk := true, yoloRaw := .ok ([detEx], 3 / 5), geoRaw := .ok [] }
        none).geoCalls = 0 :=
  tie_at_threshold_selects_yolo sHybrid
    { imageOk := true, yoloRaw := .ok ([detEx], 3 / 5), geoRaw := .ok [] }
    [detEx] rfl rfl rfl

/-! ## `GroundingService.get_statistics`

Modelled from `multi-model-env-backend`; the `src/backend` variant guards
its `success_rate` and `avg_detections_per_query` identically.  String
formatting (`f"{x:.2f}%"`) is dropped: the report keeps the numeric values. -/

/-- The numeric content of the statistics dictionary. -/
structure StatisticsReport where
  totalQueries : ℤ
  totalDetections : ℤ
  failedQueries : ℤ
  yoloSelections : ℤ
  geogroundSelections : ℤ
  successRate : ℚ
  yoloPercentage : ℚ
  geogroundPercentage : ℚ
  avgDetectionsPerQuery : ℚ

/-- Embeds `GroundingService.get_statistics`: each ratio is guarded by a
positivity check on its denominator and reported as `0.0` otherwise. -/
def get_statistics (st : Stats) : StatisticsReport :=
  { totalQueries := st.totalQueries
    totalDetections := st.totalDetections
    failedQueries := st.failedQueries
    yoloSelections := st.yoloSelections
    geogroundSelections := st.geogroundSelections
    successRate :=
      if 0 < st.totalQueries then
        ((st.totalQueries - st.failedQueries : ℤ) : ℚ) /
          (st.totalQueries : ℚ) * 100
      else 0
    yoloPercentage :=
      if 0 < st.totalQueries then
        (st.yoloSelections : ℚ) / (st.totalQueries : ℚ) * 100
      else 0
    geogroundPercentage :=
      if 0 < st.totalQueries then
        (st.geogroundSelections : ℚ) / (st.totalQueries : ℚ) * 100
      else 0
    avgDetectionsPerQuery :=
      if 0 < st.totalQueries - st.failedQueries then
        (st.totalDetections : ℚ) /
          ((st.totalQueries - st.failedQueries : ℤ) : ℚ)
      else 0 }

/-- C10: `get_statistics` is total on every counter state (no division is
reached with a zero denominator): with `total_queries = 0` the success rate
is reported as `0.0`, and with a non-positive successful-query count
(`total_queries - failed_queries ≤ 0`) the average detections per query is
reported as `0.0`. -/
theorem get_statistics_division_guards (st : Stats) :
    (st.totalQueries = 0 → (get_statistics st).successRate = 0) ∧
      (st.totalQueries - st.failedQueries ≤ 0 →
        (get_statistics st).avgDetectionsPerQuery = 0) := by
  refine ⟨fun h => ?_, fun h => ?_⟩
  · simp [get_statistics, h]
  · simp only [get_statistics]
    rw [if_neg (by omega)]

/-- C10 witness: the freshly initialized counter state (all zeros) reports
both guarded ratios as `0.0`. -/
theorem get_statistics_division_guards_witness :
    (get_statistics ⟨0, 0, 0, 0, 0⟩).successRate = 0 ∧
      (get_statistics ⟨0, 0, 0, 0, 0⟩).avgDetectionsPerQuery = 0 :=
  ⟨(get_statistics_division_guards ⟨0, 0, 0, 0, 0⟩).1 rfl,
   (get_statistics_division_guards ⟨0, 0, 0, 0, 0⟩).2 (by norm_num)⟩

/-! ## Module-level singleton (`get_grounding_service`)

A service instance is reduced to which big resources it still references
(`True` = reference held).  `GroundingService.cleanup` deletes and `None`s
all four.  `get_grounding_service` holds the module global
`_grounding_service`; since Python never mutates the old object in that
function, the old instance after the call is returned unchanged as the
result's third component. -/

/-- The resource-holding references of one `GroundingService` instance. -/
structure GSHandle where
  yoloModel : Bool
  geogroundModel : Bool
  tokenizer : Bool
  imageProcessor : Bool
deriving DecidableEq

/-- Embeds `GroundingService.cleanup`: it `del`s and `None`s the model, tokenizer and
image-processor references (and empties the accelerator cache). -/
def cleanup (g : GSHandle) : GSHandle :=
  { yoloModel := false, geogroundModel := false, tokenizer := false,
    imageProcessor := false }

/-- Embeds `get_grounding_service`: `if _grounding_service is None or force_reload:
_grounding_service = GroundingService(...)`, then return it.  `fresh` is the
newly constructed instance.  Result: (new value of the module global, the
returned instance, the PREVIOUS instance as it stands after the call — the
function body never touches it). -/
def get_grounding_service (global : Option GSHandle) (forceReload : Bool)
    (fresh : GSHandle) : Option GSHandle × GSHandle × Option GSHandle :=
  match global, forceReload with
  | none, _ => (some fresh, fresh, none)
  | some g, true => (some fresh, fresh, some g)
  | some g, false => (some g, g, some g)

/-- A fully loaded previous instance. -/
def loadedHandle : GSHandle :=
  { yoloModel := true, geogroundModel := true, tokenizer := true,
    imageProcessor := true }

/-- C9 counterexample: calling `get_grounding_service` with
`force_reload=True` over an existing fully loaded instance leaves that
previous instance holding ALL of its model, tokenizer and image-processor
references — its `cleanup` (which would clear every one of them) is never
invoked by the accessor, so the previous instance's resources are not
released before the new instance is constructed. -/
theorem force_reload_skips_cleanup_cex :
    (get_grounding_service (some loadedHandle) true loadedHandle).2.2 =
        some loadedHandle ∧
      loadedHandle.yoloModel = true ∧
      loadedHandle.tokenizer = true ∧
      loadedHandle ≠ cleanup loadedHandle := by
  refine ⟨rfl, rfl, rfl, ?_⟩
  intro h
  exact absurd (congrArg GSHandle.yoloModel h) (by simp [loadedHandle, cleanup])

/-- C9 amended: `get_grounding_service(force_reload=True)` constructs a new
instance and replaces the module global with it, but does NOT run the
previous instance's `cleanup`: the previous instance is left unchanged
(its model, tokenizer, and image-processor references are not dropped by
the accessor; releasing them is left to the garbage collector or to an
explicit `cleanup_grounding_service()` call). -/
theorem force_reload_replaces_without_cleanup (g fresh : GSHandle) :
    get_grounding_service (some g) true fresh = (some fresh, fresh, some g) :=
  rfl

end IsroGeo
